import Mathlib

/-!
Verification development for the deezspot download orchestrator
(src/deezspot/spotloader/__download__.py and src/deezspot/__taggers__.py).

The Python code is shallowly embedded: filesystem state is an association
list from paths to content fingerprints, the process-wide active-download
registry is an explicit record, progress reporting is a list of emitted
events, and every fallible external collaborator (stream acquisition,
chunked write, ffmpeg invocation, mutagen tag writers) is an oracle
argument returning an Except value.  Python exceptions are Except.error;
try/except blocks become matches on those values.
-/

set_option linter.unusedVariables false

deriving instance DecidableEq for Except

namespace Deezspot

/-- File paths.  Python strings. -/
abbrev FPath := String

/-- A Python value that is either a string or None (e.g. `metadata.get(key)`). -/
abbrev PyStr := Option String

/-! ### Filesystem model

A disk is a finite map from paths to content fingerprints (a `Nat`
standing for the bytes of the file).  Later bindings shadow earlier ones;
all operations keep at most one binding per path. -/

/-- The filesystem: an association list from paths to content fingerprints. -/
abbrev Disk := List (FPath × Nat)

/-- Content of the file at `p`, if present. -/
def Disk.get : Disk → FPath → Option Nat
  | [], _ => none
  | e :: d, p => if e.1 = p then some e.2 else Disk.get d p

/-- `os.path.exists p` -/
def Disk.hasFile (d : Disk) (p : FPath) : Bool :=
  (Disk.get d p).isSome

/-- `os.remove p` (total model: removing an absent path is the identity;
call sites guard with `hasFile` exactly where the source guards with
`os.path.exists`). -/
def Disk.rm : Disk → FPath → Disk
  | [], _ => []
  | e :: d, p => if e.1 = p then Disk.rm d p else e :: Disk.rm d p

/-- Writing (or overwriting) the file at `p` with content `c`. -/
def Disk.wr (d : Disk) (p : FPath) (c : Nat) : Disk :=
  (p, c) :: Disk.rm d p

/-- `os.replace src dst`: move the file at `src` onto `dst`.  Call sites
guarantee `src` exists (the source call raises otherwise, which is handled
at each call site). -/
def Disk.mv (d : Disk) (src dst : FPath) : Disk :=
  match Disk.get d src with
  | none => d
  | some c => Disk.wr (Disk.rm d src) dst c

/-! ### Active-Item Registry

Global state of `__download__.py` lines 46-49: the set ACTIVE_DOWNLOADS of
in-flight output paths and the CURRENT_DOWNLOAD pointer.  The set is kept
as a duplicate-free list. -/

/-- The Active-Item Registry: ACTIVE_DOWNLOADS plus CURRENT_DOWNLOAD. -/
structure Registry where
  active : List FPath
  current : Option FPath
deriving Repr, DecidableEq

/-- `register_active_download` (lines 52-56): add the path to the active
set and mark it current. -/
def register_active_download (st : Registry) (p : FPath) : Registry :=
  { active := if p ∈ st.active then st.active else p :: st.active
    current := some p }

/-- `unregister_active_download` (lines 59-65): if the path is registered,
remove it and clear the current pointer when it matches; otherwise no-op. -/
def unregister_active_download (st : Registry) (p : FPath) : Registry :=
  if p ∈ st.active then
    { active := st.active.erase p
      current := if st.current = some p then none else st.current }
  else st

/-- `GLOBAL_MAX_RETRIES` (line 44). -/
def GLOBAL_MAX_RETRIES : Nat := 100

/-- `cleanup_active_downloads` (lines 68-84), invoked by the signal handler
and the atexit hook: when the lock is not held and a current download is
recorded and its file still exists, delete that one file and unregister it;
in every other case change nothing. -/
def cleanup_active_downloads (cleanupLock : Bool) (st : Registry) (d : Disk) :
    Registry × Disk :=
  if cleanupLock then (st, d)
  else
    match st.current with
    | none => (st, d)
    | some p =>
        if Disk.hasFile d p then (unregister_active_download st p, Disk.rm d p)
        else (st, d)

/-! ### Existence check (skip detection)

`EASY_DW.read_metadata` (lines 389-422) and `EASY_DW.track_exists`
(lines 361-387).  A directory entry carries its extension, whether the
metadata reader can parse it, and its embedded title/album tags. -/

/-- Audio file extension as dispatched on by the source. -/
inductive FExt
  | mp3 | ogg | flac | wav | m4a | opus | nonAudio
deriving Repr, DecidableEq

/-- A file of the final target directory, as seen by the skip scan. -/
structure AudioFile where
  ext : FExt
  readable : Bool
  title : PyStr
  album : PyStr
deriving Repr, DecidableEq

/-- `EASY_DW.read_metadata`: returns the embedded (title, album) pair; on
any read error or for an extension without a tag-reading branch it returns
(None, None) (the source catches every exception and returns (None, None),
and the final `else` branch does the same). -/
def read_metadata (f : AudioFile) : PyStr × PyStr :=
  if !f.readable then (none, none)
  else
    match f.ext with
    | FExt.mp3 | FExt.ogg | FExt.flac | FExt.m4a => (f.title, f.album)
    | _ => (none, none)

/-- The extension filter of `track_exists` line 376: files ending in
.mp3, .ogg, .flac, .wav, .m4a or .opus are scanned. -/
def isAudioExt : FExt → Bool
  | FExt.mp3 | FExt.ogg | FExt.flac | FExt.wav | FExt.m4a | FExt.opus => true
  | FExt.nonAudio => false

/-- The state of the final target directory for the skip scan. -/
inductive DirListing
  | missing
  | unreadable
  | files (fs : List AudioFile)
deriving Repr, DecidableEq

/-- `EASY_DW.track_exists`: false when the final directory does not exist
(line 371), false when scanning it raises (the outer handler, lines
385-387), and otherwise true exactly when some scanned audio file has
embedded tags equal to the requested pair (Python `==`, which also holds
between two None values). -/
def track_exists (title album : PyStr) (dir : DirListing) : Bool :=
  match dir with
  | DirListing.missing => false
  | DirListing.unreadable => false
  | DirListing.files fs =>
      fs.any (fun f => isAudioExt f.ext && decide (read_metadata f = (title, album)))

/-! ### Media Result

`deezspot.models.track.Track` is not under src/ and is modelled from the
spec. -/

/-- Modelled from the spec: the Media Result record (the `Track` class of
`deezspot.models.track`, which is not part of the sources).  Per section 3
of the spec it carries a resolved output path, a `success` flag and a
`was_skipped` flag.  A freshly constructed result is successful and not
skipped: the aggregators and the cli variants test `track.success` on
results that nothing ever set, and only failure and skip paths assign the
flags (always to False / True respectively). -/
structure TrackRes where
  songPath : Option FPath := none
  success : Bool := true
  wasSkipped : Bool := false
deriving Repr, DecidableEq

/-! ### Progress events

Only the status tag and the payload fields the claims speak about are
modelled; the parent-context enrichment blocks repeated at every emission
site carry reporting-only data. -/

/-- A progress event reported through `Download_JOB.report_progress` by the
per-item orchestrator. -/
inductive Ev
  | statusProgress
  | skipped
  | retrying (count : Nat) (secondsLeft : Nat) (err : String)
  | convError (msg : String)
  | statusDone
deriving Repr, DecidableEq

/-! ### Conversion pipeline

`EASY_DW.__convert_audio` (lines 229-282).  The temporary name is derived
by the caller from the song path (source line 231); the ffmpeg invocation
goes through `os.system`, which reports nothing to Python, so whether the
output file was produced and whether an exception interrupts the body
after the invocation are oracle inputs.  The optional transcode step
(lines 250-269) swallows its own errors and is modelled as absent
(`convert_to = None`). -/

/-- Source line 231: the temporary filename for container normalization. -/
def temp_name (song : FPath) : FPath :=
  song.replace ".ogg" ".tmp"

/-- Oracle for one `__convert_audio` invocation. -/
structure ConvEnv where
  /-- whether the ffmpeg copy produced the output file at the song path -/
  ffmpegWritesOutput : Bool
  /-- content fingerprint of the produced output -/
  ffmpegOutContent : Nat
  /-- whether an exception interrupts the try body after the ffmpeg call -/
  interruptAfterFfmpeg : Bool
deriving Repr, DecidableEq

/-- The except handler of `__convert_audio` (lines 271-282): restore the
temporary file as the original only when the temporary file exists and no
file exists at the original path, then delete the temporary file if it is
still there and unregister it. -/
def normalize_recover (song temp : FPath) (d : Disk) (reg : Registry) :
    Disk × Registry :=
  let d1 := if Disk.hasFile d temp && !Disk.hasFile d song then Disk.mv d temp song else d
  if Disk.hasFile d1 temp then (Disk.rm d1 temp, unregister_active_download reg temp)
  else (d1, reg)

/-- `EASY_DW.__convert_audio` with `convert_to = None`: move the raw file
to the temporary name (line 232; raises when the song path is absent, and
that move is outside the try block), register the temporary file, invoke
ffmpeg, and on an interruption run the except handler and re-raise;
otherwise register the output and delete the temporary file (lines
243-248). -/
def convert_audio (env : ConvEnv) (song temp : FPath) (d : Disk) (reg : Registry) :
    Except String Unit × Disk × Registry :=
  match Disk.get d song with
  | none => (Except.error "FileNotFoundError", d, reg)
  | some _ =>
      let d1 := Disk.mv d song temp
      let reg1 := register_active_download reg temp
      let d2 := if env.ffmpegWritesOutput then Disk.wr d1 song env.ffmpegOutContent else d1
      if env.interruptAfterFfmpeg then
        let r := normalize_recover song temp d2 reg1
        (Except.error "conversion interrupted", r.1, r.2)
      else
        let reg2 := register_active_download reg1 song
        if Disk.hasFile d2 temp then
          (Except.ok (), Disk.rm d2 temp, unregister_active_download reg2 temp)
        else
          (Except.ok (), d2, reg2)

/-! ### Per-item orchestrator

`EASY_DW.download_try` (lines 424-974).  The chunked real-time pacing
branch differs from the bulk branch only in wall-clock sleeps and
percentage events, so both write modes are represented by one fallible
write step.  The string normalization applied to conversion error
messages (lines 825-831) is elided. -/

/-- Request Descriptor fields used by the orchestrator (`Preferences`). -/
structure Prefs where
  songPath : FPath
  title : PyStr
  album : PyStr
  initialRetryDelay : Nat := 30
  retryDelayIncrease : Nat := 30
  maxRetries : Nat := 5

/-- Oracles for the external collaborators of one `download_try` run:
the outcome of the k-th stream acquisition (content id of the stream, or
an exception), the outcome of the disk write that follows it, and the
ffmpeg behaviour of the i-th conversion invocation. -/
structure DTEnv where
  acquire : Nat → Except String Nat
  writeStep : Nat → Except String Unit
  conv : Nat → ConvEnv

/-- The mutable world threaded through one orchestrator run: the disk, the
Active-Item Registry, the emitted progress events, the process-wide
GLOBAL_RETRY_COUNT and the performed backoff sleeps (in seconds). -/
structure Dl where
  disk : Disk
  reg : Registry
  events : List Ev
  globalRetry : Nat
  sleeps : List Nat
deriving Repr, DecidableEq

/-- The acquisition/write retry loop of `download_try` (lines 556-819).
One iteration: acquire the stream; on success register the path and run
the write step — a write exception is handled by the inner except block
(lines 708-728: delete the incomplete file, unregister) after which
control falls through to lines 730-732 and breaks out of the loop without
re-raising; an acquisition exception reaches the outer except block
(lines 734-819): bump both retry counters, delete any incomplete file,
unregister, emit a retrying event, raise the terminal error once a cap is
reached, and otherwise sleep the current delay and grow it by the
configured increment.  Returns the loop outcome, the retry delay in force
at exit, and the final world.  The fuel argument exceeds the number of
possible iterations (each failing iteration increments `retries`, and the
loop raises once `retries` reaches `maxRetries`). -/
def dw_loop (p : Prefs) (env : DTEnv) :
    Nat → Nat → Nat → Nat → Dl → Except String Unit × Nat × Dl
  | 0, _, _, delay, s => (Except.error "loop fuel exhausted", delay, s)
  | fuel + 1, attempt, retries, delay, s =>
      match env.acquire attempt with
      | Except.ok content =>
          let s1 : Dl := { s with reg := register_active_download s.reg p.songPath }
          match env.writeStep attempt with
          | Except.ok _ =>
              (Except.ok (), delay,
               { s1 with
                   disk := Disk.wr s1.disk p.songPath content
                   reg := unregister_active_download s1.reg p.songPath })
          | Except.error _ =>
              let d1 := if Disk.hasFile s1.disk p.songPath
                        then Disk.rm s1.disk p.songPath else s1.disk
              let reg1 := unregister_active_download s1.reg p.songPath
              let reg2 := unregister_active_download reg1 p.songPath
              (Except.ok (), delay, { s1 with disk := d1, reg := reg2 })
      | Except.error msg =>
          let g := s.globalRetry + 1
          let r := retries + 1
          let d1 := if Disk.hasFile s.disk p.songPath
                    then Disk.rm s.disk p.songPath else s.disk
          let s1 : Dl := { s with
              globalRetry := g
              disk := d1
              reg := unregister_active_download s.reg p.songPath
              events := s.events ++ [Ev.retrying r delay msg] }
          if r ≥ p.maxRetries ∨ g ≥ GLOBAL_MAX_RETRIES then
            (Except.error "Maximum retry limit reached", delay, s1)
          else
            dw_loop p env fuel (attempt + 1) r (delay + p.retryDelayIncrease)
              { s1 with sleeps := s1.sleeps ++ [delay] }

/-- The tail of a successful `download_try` (lines 916-974): rebuild the
track record, write tags (shown separately never to raise) and emit the
done event. -/
def dt_finish (p : Prefs) (s : Dl) : Except String TrackRes × Dl :=
  (Except.ok { songPath := some p.songPath },
   { s with events := s.events ++ [Ev.statusDone] })

/-- `EASY_DW.download_try`: the skip check against the final directory
(lines 429-486), the initial progress event (lines 500-554), the
acquisition/write retry loop, and the conversion stage with its single
retry after a backoff sleep (lines 821-914). -/
def download_try (p : Prefs) (env : DTEnv) (dir : DirListing) (s : Dl) :
    Except String TrackRes × Dl :=
  if track_exists p.title p.album dir then
    (Except.ok { songPath := some p.songPath, success := false, wasSkipped := true },
     { s with events := s.events ++ [Ev.skipped] })
  else
    let s1 : Dl := { s with events := s.events ++ [Ev.statusProgress] }
    match dw_loop p env (p.maxRetries + 1) 1 0 p.initialRetryDelay s1 with
    | (Except.error msg, _, s2) => (Except.error msg, s2)
    | (Except.ok _, delay, s2) =>
        match convert_audio (env.conv 1) p.songPath (temp_name p.songPath) s2.disk s2.reg with
        | (Except.ok _, d3, r3) => dt_finish p { s2 with disk := d3, reg := r3 }
        | (Except.error m1, d3, r3) =>
            let d4 := if Disk.hasFile d3 p.songPath then Disk.rm d3 p.songPath else d3
            let s3 : Dl := { s2 with
                disk := d4
                reg := r3
                events := s2.events ++ [Ev.convError m1]
                sleeps := s2.sleeps ++ [delay] }
            match convert_audio (env.conv 2) p.songPath (temp_name p.songPath) s3.disk s3.reg with
            | (Except.ok _, d5, r5) => dt_finish p { s3 with disk := d5, reg := r5 }
            | (Except.error _, d5, r5) =>
                let d6 := if Disk.hasFile d5 p.songPath then Disk.rm d5 p.songPath else d5
                (Except.error "Audio conversion failed after retry",
                 { s3 with
                     disk := d6
                     reg := r5
                     events := s3.events ++ [Ev.convError "Audio conversion failed after retry"] })

/-! ### Batch aggregators

`DW_ALBUM.dw` (lines 1195-1315) and `DW_PLAYLIST.dw` (lines 1333-1462).
Both drive the per-item orchestrator once per member item; the call is
abstracted as an oracle `run : item index → Except DlError TrackRes`
(the loop treats it as a black box that returns a Media Result or
raises).  The reporting-only metadata juggling, the zip archive and the
cli variants are not modelled. -/

/-- An exception escaping one per-item orchestrator call: either the
dedicated `TrackNotFound` or any other exception. -/
inductive DlError
  | trackNotFound
  | otherExc (msg : String)
deriving Repr, DecidableEq

/-- One member entry of a playlist metadata list: an error string (the
metadata could not be resolved) or a resolvable metadata mapping carrying
the catalog id. -/
inductive PMeta
  | errString (s : String)
  | metaOk (ids : Nat)
deriving Repr, DecidableEq

/-- The placeholder Media Result built by the album loop on TrackNotFound
(lines 1273-1275): `Track(c_song_metadata, None, None, None, None, None)`
with `success = False`. -/
def albumPlaceholder : TrackRes :=
  { songPath := none, success := false }

/-- The placeholder Media Result built by the playlist loop on any
exception (lines 1428-1432). -/
def playlistPlaceholder : TrackRes :=
  { songPath := none, success := false }

/-- The per-item loop of `DW_ALBUM.dw` (lines 1251-1276), over the list
of item indices: only `TrackNotFound` is caught and replaced by a
placeholder (lines 1272-1275); any other exception propagates out of the
loop and aborts the whole album download. -/
def album_loop (run : Nat → Except DlError TrackRes) :
    List Nat → Except DlError (List TrackRes)
  | [] => Except.ok []
  | a :: rest =>
      match run a with
      | Except.ok t => (album_loop run rest).map (fun ts => t :: ts)
      | Except.error DlError.trackNotFound =>
          (album_loop run rest).map (fun ts => albumPlaceholder :: ts)
      | Except.error (DlError.otherExc m) => Except.error (DlError.otherExc m)

/-- The ordered result collection of `DW_ALBUM.dw`. -/
structure AlbumRes where
  tracks : List TrackRes
deriving Repr, DecidableEq

/-- `DW_ALBUM.dw` restricted to its per-item loop and result assembly:
one orchestrator call per track index `0 .. n-1`. -/
def DW_ALBUM_dw (n : Nat) (run : Nat → Except DlError TrackRes) :
    Except DlError AlbumRes :=
  (album_loop run (List.range n)).map (fun ts => { tracks := ts })

/-- The ordered result collection of `DW_PLAYLIST.dw`, with the
accumulated failure records and the incrementally appended playlist-file
lines. -/
structure PlaylistRes where
  tracks : List TrackRes
  failedTrackIndices : List Nat
  m3u : List FPath
deriving Repr, DecidableEq

/-- Batch-level progress events of the aggregators. -/
inductive BatchEv
  | initStatus
  | doneStatus (successfulTracks failedTracks : Nat)
deriving Repr, DecidableEq

/-- One iteration of the `DW_PLAYLIST.dw` loop body (lines 1362-1432) for
the item at 0-based index `idx`: string metadata is logged and skipped
without appending anything (lines 1366-1368); a returned track is
appended, recorded among the failures when `success` is false (lines
1387-1393, a check that does not look at `was_skipped`), and added to the
m3u file when successful with a path (lines 1396-1412); any exception is
caught, recorded, and replaced by a placeholder (lines 1414-1432). -/
def playlist_step (run : Nat → Except DlError TrackRes) (idx : Nat) (m : PMeta) :
    List TrackRes × List Nat × List FPath :=
  match m with
  | PMeta.errString _ => ([], [], [])
  | PMeta.metaOk _ =>
      match run idx with
      | Except.ok t =>
          ([t],
           if t.success then [] else [idx + 1],
           match t.songPath with
           | some pa => if t.success then [pa] else []
           | none => [])
      | Except.error _ => ([playlistPlaceholder], [idx + 1], [])

/-- The whole per-item loop of `DW_PLAYLIST.dw`: `for idx, meta in
enumerate(metadata)`, threading the running 0-based index and
concatenating the per-item contributions in input order. -/
def playlist_loop (run : Nat → Except DlError TrackRes) :
    Nat → List PMeta → PlaylistRes
  | _, [] => { tracks := [], failedTrackIndices := [], m3u := [] }
  | idx, m :: rest =>
      let h := playlist_step run idx m
      let r := playlist_loop run (idx + 1) rest
      { tracks := h.1 ++ r.tracks
        failedTrackIndices := h.2.1 ++ r.failedTrackIndices
        m3u := h.2.2 ++ r.m3u }

/-- `DW_PLAYLIST.dw` restricted to its per-item loop, result assembly and
batch events: the initializing event, one orchestrator call per member
item, and the done event carrying the count of successful tracks and the
length of the failure record (lines 1445-1456). -/
def DW_PLAYLIST_dw (metas : List PMeta) (run : Nat → Except DlError TrackRes) :
    PlaylistRes × List BatchEv :=
  let res := playlist_loop run 0 metas
  (res,
   [BatchEv.initStatus,
    BatchEv.doneStatus (res.tracks.countP (fun t => t.success))
      res.failedTrackIndices.length])

/-! ### Tag writer

`write_tags` of `__taggers__.py` (lines 301-343).  The container-specific
writers `__write_flac`, `__write_mp3` and `__write_ogg` each wrap their
whole body in try/except and log instead of raising (lines 105-107,
199-201, 296-298); their fallible mutagen/network internals are oracle
outcomes. -/

/-- The media argument of `write_tags`: a Track with its `song_path`, an
Episode with its `episode_path`, or any other object (line 315). -/
inductive Media
  | trk (songPath : Option FPath) (fileFormat : String)
  | episode (episodePath : Option FPath) (fileFormat : String)
  | unsupported
deriving Repr, DecidableEq

/-- What the tag writer emitted to the log. -/
inductive TagLog
  | warn (msg : String)
  | errorLog (msg : String)
  | wroteOk
deriving Repr, DecidableEq

/-- Oracle outcomes of the fallible internals of the three container
writers. -/
structure TagEnv where
  flacStep : Except String Unit
  oggStep : Except String Unit
  mp3Step : Except String Unit
deriving Repr, DecidableEq

/-- `__write_flac` (lines 49-107): any internal failure is logged, never
raised. -/
def write_flac_tags (env : TagEnv) : List TagLog :=
  match env.flacStep with
  | Except.ok _ => [TagLog.wroteOk]
  | Except.error m => [TagLog.errorLog m]

/-- `__write_ogg` (lines 204-298): any internal failure is logged, never
raised. -/
def write_ogg_tags (env : TagEnv) : List TagLog :=
  match env.oggStep with
  | Except.ok _ => [TagLog.wroteOk]
  | Except.error m => [TagLog.errorLog m]

/-- `__write_mp3` (lines 110-201): any internal failure is logged, never
raised. -/
def write_mp3_tags (env : TagEnv) : List TagLog :=
  match env.mp3Step with
  | Except.ok _ => [TagLog.wroteOk]
  | Except.error m => [TagLog.errorLog m]

/-- `write_tags` (lines 301-343): unsupported media, a missing path and a
missing file are logged and returned from normally; otherwise the
container writer for the file format runs (`.flac`, `.ogg`, anything else
goes to the mp3 writer); the surrounding try/except converts any escape
into a logged normal return, so the codomain value is an exception only
if some branch produced one. -/
def write_tags (m : Media) (d : Disk) (env : TagEnv) :
    Except String (List TagLog) :=
  match m with
  | Media.unsupported => Except.ok [TagLog.warn "Unsupported media type"]
  | Media.trk sp fmt =>
      match sp with
      | none => Except.ok [TagLog.warn "Media has no path set, skipping tag writing"]
      | some pa =>
          if !Disk.hasFile d pa then Except.ok [TagLog.warn "File does not exist"]
          else if fmt == ".flac" then Except.ok (write_flac_tags env)
          else if fmt == ".ogg" then Except.ok (write_ogg_tags env)
          else Except.ok (write_mp3_tags env)
  | Media.episode sp fmt =>
      match sp with
      | none => Except.ok [TagLog.warn "Media has no path set, skipping tag writing"]
      | some pa =>
          if !Disk.hasFile d pa then Except.ok [TagLog.warn "File does not exist"]
          else if fmt == ".flac" then Except.ok (write_flac_tags env)
          else if fmt == ".ogg" then Except.ok (write_ogg_tags env)
          else Except.ok (write_mp3_tags env)

/-! ### Concrete instances used by counterexamples and witnesses -/

/-- An empty world: empty disk, empty registry, no events. -/
def world0 : Dl :=
  { disk := [], reg := { active := [], current := none }, events := [],
    globalRetry := 0, sleeps := [] }


/-- A Media Result marked as an intentional skip (download_try lines
483-486). -/
def skippedTrack : TrackRes :=
  { songPath := some "out/track.ogg", success := false, wasSkipped := true }

/-- C4 witness input: a request whose title and album match an existing
file. -/
def c4Prefs : Prefs :=
  { songPath := "Artist - Album/track.ogg", title := some "Song", album := some "Album" }

/-- C4 witness input: the target directory already holding a matching
tagged file. -/
def c4Dir : DirListing :=
  DirListing.files
    [{ ext := FExt.ogg, readable := true, title := some "Song", album := some "Album" }]

/-- An environment whose stream acquisition fails on every attempt. -/
def failEnv : DTEnv :=
  { acquire := fun _ => Except.error "connection reset"
    writeStep := fun _ => Except.ok ()
    conv := fun _ => { ffmpegWritesOutput := true, ffmpegOutContent := 9,
                       interruptAfterFfmpeg := false } }

/-- C5 witness input: a request with a per-call retry limit of 3. -/
def c5Prefs : Prefs :=
  { songPath := "out/track.ogg", title := some "T", album := some "A", maxRetries := 3 }

/-- C2 failing input: an ordinary request. -/
def c2Prefs : Prefs :=
  { songPath := "out/track.ogg", title := some "T", album := some "A" }

/-- C2 failing input: acquisition succeeds but the disk write raises. -/
def c2Env : DTEnv :=
  { acquire := fun _ => Except.ok 7
    writeStep := fun _ => Except.error "chunk write failed"
    conv := fun _ => { ffmpegWritesOutput := true, ffmpegOutContent := 9,
                       interruptAfterFfmpeg := false } }

/-- C9 counterexample input: a registered current download whose file no
longer exists on disk. -/
def staleRegistry : Registry := { active := ["a.ogg"], current := some "a.ogg" }

/-- C10 counterexample input: an mp3 file whose metadata read fails. -/
def unreadableMp3 : AudioFile :=
  { ext := FExt.mp3, readable := false, title := some "X", album := some "Y" }

/-! ### Helper lemmas about the filesystem model -/

theorem Disk.get_rm_self (d : Disk) (p : FPath) : Disk.get (Disk.rm d p) p = none := by
  induction d with
  | nil => rfl
  | cons e d ih =>
      by_cases h : e.1 = p
      · simpa [Disk.rm, h] using ih
      · simpa [Disk.rm, Disk.get, h] using ih

theorem Disk.get_rm_ne (d : Disk) (p q : FPath) (h : q ≠ p) :
    Disk.get (Disk.rm d p) q = Disk.get d q := by
  induction d with
  | nil => rfl
  | cons e d ih =>
      simp only [Disk.rm]
      by_cases h1 : e.1 = p
      · rw [if_pos h1, ih]
        have h2 : e.1 ≠ q := by rw [h1]; exact Ne.symm h
        simp [Disk.get, h2]
      · rw [if_neg h1]
        simp only [Disk.get]
        by_cases h2 : e.1 = q
        · rw [if_pos h2, if_pos h2]
        · rw [if_neg h2, if_neg h2, ih]

theorem Disk.get_wr_self (d : Disk) (p : FPath) (c : Nat) :
    Disk.get (Disk.wr d p c) p = some c := by
  simp [Disk.wr, Disk.get]

theorem Disk.get_wr_ne (d : Disk) (p q : FPath) (c : Nat) (h : q ≠ p) :
    Disk.get (Disk.wr d p c) q = Disk.get d q := by
  have h1 : p ≠ q := fun hc => h hc.symm
  simp [Disk.wr, Disk.get, h1, Disk.get_rm_ne d p q h]

theorem Disk.hasFile_rm_self (d : Disk) (p : FPath) :
    Disk.hasFile (Disk.rm d p) p = false := by
  simp [Disk.hasFile, Disk.get_rm_self]

theorem Disk.hasFile_rm_ne (d : Disk) (p q : FPath) (h : q ≠ p) :
    Disk.hasFile (Disk.rm d p) q = Disk.hasFile d q := by
  simp [Disk.hasFile, Disk.get_rm_ne d p q h]

theorem Disk.hasFile_wr_self (d : Disk) (p : FPath) (c : Nat) :
    Disk.hasFile (Disk.wr d p c) p = true := by
  simp [Disk.hasFile, Disk.get_wr_self]

theorem Disk.hasFile_wr_ne (d : Disk) (p q : FPath) (c : Nat) (h : q ≠ p) :
    Disk.hasFile (Disk.wr d p c) q = Disk.hasFile d q := by
  simp [Disk.hasFile, Disk.get_wr_ne d p q c h]

theorem Disk.get_of_hasFile (d : Disk) (p : FPath) (h : Disk.hasFile d p = true) :
    ∃ c, Disk.get d p = some c := by
  simpa [Disk.hasFile, Option.isSome_iff_exists] using h

theorem Disk.hasFile_of_get (d : Disk) (p : FPath) (c : Nat) (h : Disk.get d p = some c) :
    Disk.hasFile d p = true := by
  simp [Disk.hasFile, h]

theorem Disk.hasFile_condRm (d : Disk) (p : FPath) :
    Disk.hasFile (if Disk.hasFile d p then Disk.rm d p else d) p = false := by
  by_cases h : Disk.hasFile d p <;> simp [h, Disk.hasFile_rm_self]

/-! ### Helper lemmas about the aggregator loops -/

theorem playlist_loop_tracks_spec (run : Nat → Except DlError TrackRes) :
    ∀ (l : List PMeta) (k : Nat),
      (playlist_loop run k l).tracks =
        (l.enumFrom k).filterMap (fun im =>
          match im.2 with
          | PMeta.errString _ => none
          | PMeta.metaOk _ =>
              some (match run im.1 with
                    | Except.ok t => t
                    | Except.error _ => playlistPlaceholder))
  | [], k => rfl
  | m :: rest, k => by
      cases m with
      | errString s =>
          simp [playlist_loop, playlist_step, List.enumFrom,
            playlist_loop_tracks_spec run rest (k + 1)]
      | metaOk ids =>
          cases hr : run k with
          | ok t =>
              simp [playlist_loop, playlist_step, hr, List.enumFrom,
                playlist_loop_tracks_spec run rest (k + 1)]
          | error e =>
              simp [playlist_loop, playlist_step, hr, List.enumFrom,
                playlist_loop_tracks_spec run rest (k + 1)]

theorem playlist_loop_failed_spec (run : Nat → Except DlError TrackRes) :
    ∀ (l : List PMeta) (k : Nat),
      (playlist_loop run k l).failedTrackIndices =
        (l.enumFrom k).filterMap (fun im =>
          match im.2 with
          | PMeta.errString _ => none
          | PMeta.metaOk _ =>
              match run im.1 with
              | Except.ok t => if t.success then none else some (im.1 + 1)
              | Except.error _ => some (im.1 + 1))
  | [], k => rfl
  | m :: rest, k => by
      cases m with
      | errString s =>
          simp [playlist_loop, playlist_step, List.enumFrom,
            playlist_loop_failed_spec run rest (k + 1)]
      | metaOk ids =>
          cases hr : run k with
          | ok t =>
              by_cases hs : t.success <;>
                simp [playlist_loop, playlist_step, hr, hs, List.enumFrom,
                  playlist_loop_failed_spec run rest (k + 1)]
          | error e =>
              simp [playlist_loop, playlist_step, hr, List.enumFrom,
                playlist_loop_failed_spec run rest (k + 1)]

theorem playlist_loop_length_spec (run : Nat → Except DlError TrackRes) :
    ∀ (l : List PMeta) (k : Nat),
      (playlist_loop run k l).tracks.length =
        (l.filter (fun m => match m with | PMeta.errString _ => false | _ => true)).length
  | [], k => rfl
  | m :: rest, k => by
      cases m with
      | errString s =>
          simp [playlist_loop, playlist_step, List.filter,
            playlist_loop_length_spec run rest (k + 1)]
      | metaOk ids =>
          cases hr : run k with
          | ok t =>
              simp [playlist_loop, playlist_step, hr, List.filter,
                playlist_loop_length_spec run rest (k + 1)]
          | error e =>
              simp [playlist_loop, playlist_step, hr, List.filter,
                playlist_loop_length_spec run rest (k + 1)]

theorem album_loop_ok_spec (run : Nat → Except DlError TrackRes) :
    ∀ (l : List Nat),
      (∀ a ∈ l, ∀ m, run a ≠ Except.error (DlError.otherExc m)) →
      album_loop run l =
        Except.ok (l.map (fun a =>
          match run a with
          | Except.ok t => t
          | Except.error _ => albumPlaceholder))
  | [], _ => rfl
  | a :: rest, h => by
      have hrest := album_loop_ok_spec run rest
        (fun b hb m => h b (List.mem_cons_of_mem a hb) m)
      cases hr : run a with
      | ok t => simp [album_loop, hr, hrest, Except.map]
      | error e =>
          cases e with
          | trackNotFound => simp [album_loop, hr, hrest, Except.map]
          | otherExc m => exact absurd hr (h a (List.mem_cons_self a rest) m)

/-! ### Claim theorems -/

/-- C9, counterexample.  The claim states that after cleanup the registry
state is cleared.  With a current pointer whose file no longer exists,
`cleanup_active_downloads` deletes nothing and also leaves the current
pointer set: the registry state is not cleared. -/
theorem C9_counterexample :
    (cleanup_active_downloads false staleRegistry []).1.current = some "a.ogg" := by
  decide

/-- C9, amended.  The cleanup routine deletes at most the single file
named by the current pointer, and only if that file still exists: every
path other than the current one keeps its content; when the current file
is already gone, cleanup changes nothing at all (in particular the
registry is not cleared); when it exists, the disk loses exactly that
file and the registry is updated by one unregister call (which clears the
current pointer but keeps any other registered path in the active set). -/
theorem C9_cleanup_amended (st : Registry) (d : Disk) :
    (∀ q : FPath, st.current ≠ some q →
        Disk.get (cleanup_active_downloads false st d).2 q = Disk.get d q) ∧
    (∀ p : FPath, st.current = some p → Disk.hasFile d p = false →
        cleanup_active_downloads false st d = (st, d)) ∧
    (∀ p : FPath, st.current = some p → Disk.hasFile d p = true →
        cleanup_active_downloads false st d =
          (unregister_active_download st p, Disk.rm d p)) := by
  refine ⟨?_, ?_, ?_⟩
  · intro q hq
    match hc : st.current with
    | none => simp [cleanup_active_downloads, hc]
    | some p =>
        have hpq : q ≠ p := by
          intro h
          exact hq (by rw [hc, h])
        by_cases hf : Disk.hasFile d p
        · simp [cleanup_active_downloads, hc, hf, Disk.get_rm_ne d p q hpq]
        · simp [cleanup_active_downloads, hc, hf]
  · intro p hp hf
    simp [cleanup_active_downloads, hp, hf]
  · intro p hp hf
    simp [cleanup_active_downloads, hp, hf]

/-- C9, witness for the amended theorem at a concrete input: cleanup with
an existing current file deletes exactly it and unregisters it. -/
theorem C9_cleanup_amended_witness :
    cleanup_active_downloads false { active := ["b.ogg"], current := some "b.ogg" }
        [("b.ogg", 5), ("done.ogg", 9)] =
      (unregister_active_download { active := ["b.ogg"], current := some "b.ogg" } "b.ogg",
       Disk.rm [("b.ogg", 5), ("done.ogg", 9)] "b.ogg") :=
  (C9_cleanup_amended { active := ["b.ogg"], current := some "b.ogg" }
      [("b.ogg", 5), ("done.ogg", 9)]).2.2 "b.ogg" rfl (by decide)

/-- C10, counterexample.  The claim states that a metadata-read failure is
treated as track not present (returns False).  When the requested title
and album are both None (both metadata keys absent), a directory holding
one unreadable mp3 makes `track_exists` return True, because the (None,
None) pair returned by the failed read compares equal to the request. -/
theorem C10_counterexample :
    track_exists none none (DirListing.files [unreadableMp3]) = true := by decide

/-- C10, amended.  `track_exists` is total and returns False on a missing
or unscannable directory; over a directory listing it returns True exactly
when some file with a scanned audio extension has a `read_metadata` result
equal to the requested pair — so a file whose metadata cannot be read
(result (None, None)) is treated as not present exactly when the request
has an actual title or album, while an all-None request matches it. -/
theorem C10_track_exists_amended (t a : PyStr) :
    track_exists t a DirListing.missing = false ∧
    track_exists t a DirListing.unreadable = false ∧
    ∀ fs : List AudioFile,
      (track_exists t a (DirListing.files fs) = true ↔
        ∃ f ∈ fs, isAudioExt f.ext = true ∧ read_metadata f = (t, a)) := by
  refine ⟨rfl, rfl, fun fs => ?_⟩
  simp [track_exists, List.any_eq_true]

/-- C10, witness for the amended theorem at concrete inputs. -/
theorem C10_track_exists_amended_witness :
    track_exists (some "T") (some "A") DirListing.missing = false ∧
    track_exists (some "T") (some "A")
      (DirListing.files [{ ext := FExt.flac, readable := true,
                           title := some "T", album := some "A" }]) = true :=
  ⟨(C10_track_exists_amended (some "T") (some "A")).1,
   ((C10_track_exists_amended (some "T") (some "A")).2.2 _).2
     ⟨{ ext := FExt.flac, readable := true, title := some "T", album := some "A" },
      by decide, by decide, by decide⟩⟩

/-- C7, counterexample.  The claim states that when container
normalization fails, the original raw file is restored at the original
path.  When the interruption strikes after the ffmpeg copy already
produced output at the original path, the handler keeps that output
(content 9), deletes the temporary copy of the original, and the raw
content 7 is gone. -/
theorem C7_counterexample :
    convert_audio { ffmpegWritesOutput := true, ffmpegOutContent := 9,
                    interruptAfterFfmpeg := true }
        "track.ogg" "track.tmp" [("track.ogg", 7)] { active := [], current := none } =
      (Except.error "conversion interrupted", [("track.ogg", 9)],
       { active := [], current := none }) ∧
    Disk.get [("track.ogg", 9)] "track.ogg" ≠ some 7 := by decide

/-- C7, amended.  On a normalization failure the temporary file is never
left behind and the exception is re-raised, but the original raw content
is restored at the original path only when the ffmpeg invocation produced
no output there; if output exists, it is kept and the temporary copy of
the original is deleted.  On success the temporary file is deleted. -/
theorem C7_convert_amended (wrote : Bool) (c : Nat) (song temp : FPath) (d : Disk)
    (reg : Registry) (origC : Nat)
    (hsong : Disk.get d song = some origC)
    (htemp : Disk.hasFile d temp = false)
    (hne : temp ≠ song) :
    ((convert_audio ⟨wrote, c, true⟩ song temp d reg).1 =
        Except.error "conversion interrupted" ∧
     Disk.hasFile (convert_audio ⟨wrote, c, true⟩ song temp d reg).2.1 temp = false ∧
     Disk.get (convert_audio ⟨wrote, c, true⟩ song temp d reg).2.1 song =
        (if wrote then some c else some origC)) ∧
    ((convert_audio ⟨wrote, c, false⟩ song temp d reg).1 = Except.ok () ∧
     Disk.hasFile (convert_audio ⟨wrote, c, false⟩ song temp d reg).2.1 temp = false) := by
  have hne2 : song ≠ temp := Ne.symm hne
  cases wrote with
  | false =>
      simp [convert_audio, Disk.mv, hsong, normalize_recover, Disk.get_wr_self,
        Disk.get_wr_ne, Disk.get_rm_self, Disk.get_rm_ne, Disk.hasFile_wr_self,
        Disk.hasFile_wr_ne, Disk.hasFile_rm_self, Disk.hasFile_rm_ne, hne, hne2]
  | true =>
      simp [convert_audio, Disk.mv, hsong, normalize_recover, Disk.get_wr_self,
        Disk.get_wr_ne, Disk.get_rm_self, Disk.get_rm_ne, Disk.hasFile_wr_self,
        Disk.hasFile_wr_ne, Disk.hasFile_rm_self, Disk.hasFile_rm_ne, hne, hne2]

/-- C7, witness for the amended theorem: when ffmpeg produced no output,
the failure handler restores the raw content 7 at the original path. -/
theorem C7_convert_amended_witness :
    Disk.get (convert_audio ⟨false, 9, true⟩ "track.ogg" "track.tmp"
        [("track.ogg", 7)] { active := [], current := none }).2.1 "track.ogg" = some 7 := by
  have h := (C7_convert_amended false 9 "track.ogg" "track.tmp" [("track.ogg", 7)]
      { active := [], current := none } 7 (by decide) (by decide) (by decide)).1
  simpa using h.2.2

/-- C1, counterexample.  The claim states that in every batch (album or
playlist) every per-item exception is caught inside the loop and the
batch always returns an aggregate.  The album loop catches only
TrackNotFound: a single item failing with any other exception makes
DW_ALBUM.dw itself raise and no aggregate is returned. -/
theorem C1_counterexample :
    DW_ALBUM_dw 1 (fun _ => Except.error (DlError.otherExc "stream acquisition failed")) =
      Except.error (DlError.otherExc "stream acquisition failed") := by decide

/-- C1, amended.  The playlist aggregator catches every per-item
exception and appends a placeholder (success False, no path) at the item
position, continuing with the next item; the album aggregator converts
only TrackNotFound into such a placeholder — under the assumption that no
item raises any other exception, it returns one entry per item in input
order, while any other exception propagates and aborts the album (see
the counterexample). -/
theorem C1_amended (metas : List PMeta) (run : Nat → Except DlError TrackRes)
    (n : Nat) (runA : Nat → Except DlError TrackRes)
    (hA : ∀ a, a < n → ∀ m, runA a ≠ Except.error (DlError.otherExc m)) :
    (DW_PLAYLIST_dw metas run).1.tracks =
      metas.enum.filterMap (fun im =>
        match im.2 with
        | PMeta.errString _ => none
        | PMeta.metaOk _ =>
            some (match run im.1 with
                  | Except.ok t => t
                  | Except.error _ => playlistPlaceholder)) ∧
    DW_ALBUM_dw n runA =
      Except.ok { tracks := (List.range n).map (fun a =>
        match runA a with
        | Except.ok t => t
        | Except.error _ => albumPlaceholder) } := by
  constructor
  · simpa [DW_PLAYLIST_dw, List.enum] using playlist_loop_tracks_spec run metas 0
  · have h := album_loop_ok_spec runA (List.range n)
      (fun a ha m => hA a (List.mem_range.mp ha) m)
    simp [DW_ALBUM_dw, h, Except.map]

/-- C1, witness for the amended theorem: an album whose every item
raises TrackNotFound still yields one placeholder per item. -/
theorem C1_amended_witness :
    DW_ALBUM_dw 2 (fun _ => Except.error DlError.trackNotFound) =
      Except.ok { tracks := [albumPlaceholder, albumPlaceholder] } := by
  have h := (C1_amended [] (fun _ => Except.ok ({} : TrackRes)) 2
      (fun _ => Except.error DlError.trackNotFound)
      (fun a ha m hcontra => by simp at hcontra)).2
  exact h.trans (by decide)

/-- C3, counterexample.  The claim states the result list always has
exactly N entries, including items whose metadata could not be resolved.
A playlist with one member whose metadata is an error string yields an
empty track list: the loop skips string metadata with continue and
appends nothing. -/
theorem C3_counterexample :
    (DW_PLAYLIST_dw [PMeta.errString "track error"]
        (fun _ => Except.ok ({} : TrackRes))).1.tracks.length = 0 ∧
    [PMeta.errString "track error"].length = 1 := by decide

/-- C3, amended.  The playlist result list has exactly one entry per
member whose metadata is a resolvable mapping, in input order — an entry
is the orchestrator result when the call returns and the failure
placeholder when it raises — and members whose metadata is an error
string contribute no entry, so the length equals the count of resolvable
members, not the full member count.  For an album, when every failure is
TrackNotFound the result has exactly one entry per item (any other
exception aborts the album, see C1). -/
theorem C3_playlist_amended (metas : List PMeta) (run : Nat → Except DlError TrackRes)
    (n : Nat) (runA : Nat → Except DlError TrackRes)
    (hA : ∀ a, a < n → ∀ m, runA a ≠ Except.error (DlError.otherExc m)) :
    (DW_PLAYLIST_dw metas run).1.tracks =
      metas.enum.filterMap (fun im =>
        match im.2 with
        | PMeta.errString _ => none
        | PMeta.metaOk _ =>
            some (match run im.1 with
                  | Except.ok t => t
                  | Except.error _ => playlistPlaceholder)) ∧
    (DW_PLAYLIST_dw metas run).1.tracks.length =
      (metas.filter (fun m =>
        match m with | PMeta.errString _ => false | _ => true)).length ∧
    ∃ alb : AlbumRes, DW_ALBUM_dw n runA = Except.ok alb ∧ alb.tracks.length = n := by
  refine ⟨?_, ?_, ?_⟩
  · simpa [DW_PLAYLIST_dw, List.enum] using playlist_loop_tracks_spec run metas 0
  · simpa [DW_PLAYLIST_dw] using playlist_loop_length_spec run metas 0
  · have h := album_loop_ok_spec runA (List.range n)
      (fun a ha m => hA a (List.mem_range.mp ha) m)
    exact ⟨{ tracks := (List.range n).map (fun a =>
              match runA a with
              | Except.ok t => t
              | Except.error _ => albumPlaceholder) },
           by simp [DW_ALBUM_dw, h, Except.map], by simp⟩

/-- C3, witness for the amended theorem: three members, one with an
error string, give two entries. -/
theorem C3_playlist_amended_witness :
    (DW_PLAYLIST_dw [PMeta.metaOk 7, PMeta.errString "boom", PMeta.metaOk 8]
        (fun i => if i = 0 then Except.ok ({} : TrackRes)
                  else Except.error (DlError.otherExc "fail"))).1.tracks.length = 2 := by
  have h := (C3_playlist_amended [PMeta.metaOk 7, PMeta.errString "boom", PMeta.metaOk 8]
      (fun i => if i = 0 then Except.ok ({} : TrackRes)
                else Except.error (DlError.otherExc "fail"))
      1 (fun _ => Except.error DlError.trackNotFound)
      (fun a ha m hcontra => by simp at hcontra)).2.1
  exact h.trans (by decide)

/-- C6, counterexample.  The claim states that a skipped Media Result
(success False, was_skipped True) is never counted among the failed items
in batch completion reporting.  A playlist whose single item returns a
skipped result records its index in failed_track_indices and reports
failed_tracks = 1 in the done event. -/
theorem C6_counterexample :
    skippedTrack.wasSkipped = true ∧
    (DW_PLAYLIST_dw [PMeta.metaOk 1]
        (fun _ => Except.ok skippedTrack)).1.failedTrackIndices = [1] ∧
    (DW_PLAYLIST_dw [PMeta.metaOk 1] (fun _ => Except.ok skippedTrack)).2 =
      [BatchEv.initStatus, BatchEv.doneStatus 0 1] := by decide

/-- C6, amended.  No error progress event is emitted for a skipped item
(the skip path emits only the skipped event), but the playlist aggregator
records every result with success False — including intentionally skipped
ones — in failed_track_indices, and the batch done event reports exactly
that count as failed_tracks. -/
theorem C6_amended (p : Prefs) (env : DTEnv) (dir : DirListing) (s : Dl)
    (hex : track_exists p.title p.album dir = true)
    (metas : List PMeta) (run : Nat → Except DlError TrackRes) :
    (download_try p env dir s).2.events = s.events ++ [Ev.skipped] ∧
    (DW_PLAYLIST_dw metas run).1.failedTrackIndices =
      metas.enum.filterMap (fun im =>
        match im.2 with
        | PMeta.errString _ => none
        | PMeta.metaOk _ =>
            match run im.1 with
            | Except.ok t => if t.success then none else some (im.1 + 1)
            | Except.error _ => some (im.1 + 1)) ∧
    (DW_PLAYLIST_dw metas run).2 =
      [BatchEv.initStatus,
       BatchEv.doneStatus
         ((DW_PLAYLIST_dw metas run).1.tracks.countP (fun t => t.success))
         (DW_PLAYLIST_dw metas run).1.failedTrackIndices.length] := by
  refine ⟨by simp [download_try, hex], ?_, by simp [DW_PLAYLIST_dw]⟩
  simpa [DW_PLAYLIST_dw, List.enum] using playlist_loop_failed_spec run metas 0

/-- C6, witness for the amended theorem at a concrete skip. -/
theorem C6_amended_witness :
    (download_try c4Prefs failEnv c4Dir world0).2.events = [Ev.skipped] ∧
    (DW_PLAYLIST_dw [PMeta.metaOk 1]
        (fun _ => Except.ok skippedTrack)).1.failedTrackIndices = [1] := by
  have h := C6_amended c4Prefs failEnv c4Dir world0 (by decide)
    [PMeta.metaOk 1] (fun _ => Except.ok skippedTrack)
  exact ⟨by simpa using h.1, by rw [h.2.1]; decide⟩

/-- C4, confirmed.  When the existence check matches the requested title
and album against the target directory, download_try returns a Media
Result with success False and was_skipped True, emits exactly one skipped
progress event, and leaves the whole world — disk (so the existing file
bytes), registry, global retry counter, sleeps — unchanged: no download
is performed. -/
theorem C4_skip_idempotent (p : Prefs) (env : DTEnv) (dir : DirListing) (s : Dl)
    (h : track_exists p.title p.album dir = true) :
    download_try p env dir s =
      (Except.ok { songPath := some p.songPath, success := false, wasSkipped := true },
       { s with events := s.events ++ [Ev.skipped] }) := by
  simp [download_try, h]

/-- C4, witness at a concrete populated directory. -/
theorem C4_skip_idempotent_witness :
    download_try c4Prefs failEnv c4Dir world0 =
      (Except.ok { songPath := some "Artist - Album/track.ogg", success := false,
                   wasSkipped := true },
       { world0 with events := [Ev.skipped] }) := by
  have h := C4_skip_idempotent c4Prefs failEnv c4Dir world0 (by decide)
  simpa using h

/-- C8, confirmed.  write_tags returns normally for every media value,
disk state and internal-writer outcome: unsupported media, a missing
path, a missing file and any failing container writer all produce a
logged normal return, never an exception. -/
theorem C8_write_tags_never_raises (m : Media) (d : Disk) (env : TagEnv) :
    ∃ logs : List TagLog, write_tags m d env = Except.ok logs := by
  cases m with
  | unsupported => exact ⟨_, rfl⟩
  | trk sp fmt =>
      cases sp with
      | none => exact ⟨_, rfl⟩
      | some pa =>
          simp only [write_tags]
          split_ifs <;> exact ⟨_, rfl⟩
  | episode sp fmt =>
      cases sp with
      | none => exact ⟨_, rfl⟩
      | some pa =>
          simp only [write_tags]
          split_ifs <;> exact ⟨_, rfl⟩

/-- C5, confirmed.  With maxRetries = 3 and the global retry counter at
least 3 below its cap, a stream acquisition failing on every attempt
makes exactly 3 attempts: each failed attempt emits a retrying event
carrying the attempt count, the current delay and the error; the first
two are followed by a sleep of the current delay and a linear delay
increase (initial, initial + increase); after the third failure the
terminal maximum-retry error is raised, the global counter has grown by
3, and no file remains at the resolved output path. -/
theorem C5_retry_exhaustion (p : Prefs) (env : DTEnv) (dir : DirListing) (d0 : Disk)
    (r0 : Registry) (g0 : Nat) (msg : Nat → String)
    (hnx : track_exists p.title p.album dir = false)
    (hmax : p.maxRetries = 3)
    (hglob : g0 + 3 ≤ GLOBAL_MAX_RETRIES)
    (hacq : ∀ k, env.acquire k = Except.error (msg k)) :
    (download_try p env dir
        { disk := d0, reg := r0, events := [], globalRetry := g0, sleeps := [] }).1 =
      Except.error "Maximum retry limit reached" ∧
    (download_try p env dir
        { disk := d0, reg := r0, events := [], globalRetry := g0, sleeps := [] }).2.events =
      [Ev.statusProgress,
       Ev.retrying 1 p.initialRetryDelay (msg 1),
       Ev.retrying 2 (p.initialRetryDelay + p.retryDelayIncrease) (msg 2),
       Ev.retrying 3 (p.initialRetryDelay + p.retryDelayIncrease + p.retryDelayIncrease)
         (msg 3)] ∧
    (download_try p env dir
        { disk := d0, reg := r0, events := [], globalRetry := g0, sleeps := [] }).2.sleeps =
      [p.initialRetryDelay, p.initialRetryDelay + p.retryDelayIncrease] ∧
    (download_try p env dir
        { disk := d0, reg := r0, events := [], globalRetry := g0,
          sleeps := [] }).2.globalRetry = g0 + 3 ∧
    Disk.hasFile (download_try p env dir
        { disk := d0, reg := r0, events := [], globalRetry := g0, sleeps := [] }).2.disk
      p.songPath = false := by
  have hG : GLOBAL_MAX_RETRIES = 100 := rfl
  rw [hG] at hglob
  refine ⟨?_, ?_, ?_, ?_, ?_⟩ <;>
  · simp only [download_try, hnx, Bool.false_eq_true, if_false, hmax]
    simp only [dw_loop, hacq, GLOBAL_MAX_RETRIES, Disk.hasFile_condRm]
    rw [if_neg (by omega), if_neg (by omega), if_pos (by omega)]
    try simp [Disk.hasFile_condRm]
    try omega

/-- C5, witness at a concrete always-failing environment. -/
theorem C5_retry_exhaustion_witness :
    (download_try c5Prefs failEnv (DirListing.files []) world0).1 =
      Except.error "Maximum retry limit reached" ∧
    (download_try c5Prefs failEnv (DirListing.files []) world0).2.sleeps = [30, 60] ∧
    Disk.hasFile (download_try c5Prefs failEnv (DirListing.files []) world0).2.disk
      "out/track.ogg" = false := by
  have h := C5_retry_exhaustion c5Prefs failEnv (DirListing.files []) []
    { active := [], current := none } 0 (fun _ => "connection reset")
    (by decide) rfl (by decide) (fun k => rfl)
  exact ⟨h.1, by simpa using h.2.2.1, h.2.2.2.2⟩

/-- C2, evaluation at the failing input.  Acquisition succeeds and the
disk write raises.  The inner except block (source lines 708-728) deletes
the incomplete file and unregisters it, but does not re-raise: control
falls to lines 730-732 and breaks out of the retry loop, and the
orchestrator proceeds to the conversion stage with no file on disk — the
conversion fails on the missing file, a conversion error event is
emitted, a backoff sleep of 30 seconds happens, the conversion retry
fails again, and the error finally raised is the conversion one, not the
write exception the claim (and the spec) say is re-raised. -/
theorem C2_write_failure_not_reraised :
    download_try c2Prefs c2Env (DirListing.files []) world0 =
      (Except.error "Audio conversion failed after retry",
       { disk := [], reg := { active := [], current := none },
         events := [Ev.statusProgress, Ev.convError "FileNotFoundError",
                    Ev.convError "Audio conversion failed after retry"],
         globalRetry := 0, sleeps := [30] }) := by decide

end Deezspot
